import Mathlib

set_option autoImplicit false

namespace IntelligentAccountant

/-! # Shallow embedding of the Intelligent_Accountant repository

Source files embedded: src/utils.py (load_excel_file, the Schema
Normalizer), src/backend.py (FinancialAnalyst.execute_code, the
Sandboxed Executor, and the Total-Row Resolution Heuristic carried by
the generate_code prompt), src/app.py (the upload handler and the
chat-turn handler). -/

/-! ## Decimal rendering of natural numbers

Python renders the positional index with an f-string ("Column_" followed
by the decimal index, src/utils.py line 203).  Lean renders a Nat with
Nat.repr (the meaning of toString on Nat).  We relate Nat.repr to an
explicit most-significant-first digit list and prove it injective, so
that distinct positional indices give distinct synthetic column names. -/

def digitsChars (n : Nat) : List Char :=
  if _h : n < 10 then [Nat.digitChar n]
  else digitsChars (n / 10) ++ [Nat.digitChar (n % 10)]
decreasing_by
  simp_wf
  exact Nat.div_lt_self (by omega) (by omega)

theorem digitsChars_small {n : Nat} (h : n < 10) :
    digitsChars n = [Nat.digitChar n] := by
  rw [digitsChars]
  simp [h]

theorem digitsChars_large {n : Nat} (h : ¬ n < 10) :
    digitsChars n = digitsChars (n / 10) ++ [Nat.digitChar (n % 10)] := by
  rw [digitsChars]
  simp [h]

theorem toDigitsCore_eq_digitsChars :
    ∀ n fuel ds, n < fuel →
      Nat.toDigitsCore 10 fuel n ds = digitsChars n ++ ds := by
  intro n
  induction n using Nat.strong_induction_on with
  | _ n ih =>
    intro fuel ds hfuel
    match fuel with
    | 0 => omega
    | f + 1 =>
      show Nat.toDigitsCore 10 (f + 1) n ds = digitsChars n ++ ds
      rw [Nat.toDigitsCore]
      by_cases hn : n / 10 = 0
      · have hlt : n < 10 := by omega
        simp only [hn, if_true]
        rw [digitsChars_small hlt, Nat.mod_eq_of_lt hlt]
        rfl
      · have hge : ¬ n < 10 := by
          intro hc
          exact hn (Nat.div_eq_of_lt hc)
        simp only [hn, if_false]
        have hdiv_lt : n / 10 < n := Nat.div_lt_self (by omega) (by omega)
        have hdiv_fuel : n / 10 < f := by omega
        rw [ih (n / 10) hdiv_lt f (Nat.digitChar (n % 10) :: ds) hdiv_fuel]
        rw [digitsChars_large hge]
        simp

theorem repr_eq_digitsChars (n : Nat) :
    Nat.repr n = (digitsChars n).asString := by
  show (Nat.toDigits 10 n).asString = (digitsChars n).asString
  unfold Nat.toDigits
  rw [toDigitsCore_eq_digitsChars n (n + 1) [] (Nat.lt_succ_self n)]
  simp

/-- Decimal value of a digit-character list, most significant first. -/
def valOfDigits (l : List Char) : Nat :=
  l.foldl (fun a c => 10 * a + (c.toNat - 48)) 0

theorem digitChar_toNat_sub {k : Nat} (h : k < 10) :
    (Nat.digitChar k).toNat - 48 = k := by
  interval_cases k <;> rfl

theorem valOfDigits_digitsChars : ∀ n, valOfDigits (digitsChars n) = n := by
  intro n
  induction n using Nat.strong_induction_on with
  | _ n ih =>
    by_cases h : n < 10
    · rw [digitsChars_small h]
      show 10 * 0 + ((Nat.digitChar n).toNat - 48) = n
      rw [digitChar_toNat_sub h]
      omega
    · rw [digitsChars_large h]
      have hdiv_lt : n / 10 < n := Nat.div_lt_self (by omega) (by omega)
      have ihd := ih (n / 10) hdiv_lt
      unfold valOfDigits
      rw [List.foldl_append]
      unfold valOfDigits at ihd
      rw [ihd]
      show 10 * (n / 10) + ((Nat.digitChar (n % 10)).toNat - 48) = n
      rw [digitChar_toNat_sub (Nat.mod_lt n (by omega))]
      omega

theorem natRepr_injective : Function.Injective Nat.repr := by
  intro m n h
  rw [repr_eq_digitsChars, repr_eq_digitsChars] at h
  have hd : digitsChars m = digitsChars n := by
    have := congrArg String.data h
    simpa using this
  calc m = valOfDigits (digitsChars m) := (valOfDigits_digitsChars m).symm
    _ = valOfDigits (digitsChars n) := by rw [hd]
    _ = n := valOfDigits_digitsChars n

theorem string_append_left_cancel {p s t : String}
    (h : p ++ s = p ++ t) : s = t := by
  have hdata : p.data ++ s.data = p.data ++ t.data := by
    have := congrArg String.data h
    simpa using this
  have : s.data = t.data := List.append_cancel_left hdata
  cases s; cases t
  exact congrArg String.mk this

theorem column_name_injective {i j : Nat}
    (h : "Column_" ++ toString i = "Column_" ++ toString j) : i = j :=
  natRepr_injective (string_append_left_cancel h)

/-! ## Schema Normalizer (src/utils.py, load_excel_file)

A raw sheet is the grid pandas reads with header=None: a list of rows,
each row a list of cells, where a cell is none when the spreadsheet
cell is empty (pandas NaN) and some s when it holds a value rendered
as the string s. -/

/-- One raw row: cells are none (missing / NaN) or a value. -/
abbrev RawRow := List (Option String)

/-- A raw sheet grid as read with header=None. -/
abbrev RawRows := List RawRow

/-- Embeds pandas Series.count on one preview row: the number of
non-missing cells (src/utils.py line 22, row.count). -/
def rowCount (r : RawRow) : Nat := (r.filter Option.isSome).length

/-- Embeds the header-scan loop of load_excel_file (src/utils.py lines
20-25): walk the preview rows carrying the running index, return the
index of the first row with at least 3 non-missing cells; if no row
qualifies the initial value 0 is kept. -/
def findHeaderAux : Nat → RawRows → Nat
  | _, [] => 0
  | i, r :: rs => if 3 ≤ rowCount r then i else findHeaderAux (i + 1) rs

/-- Embeds the header choice of load_excel_file: the preview window is
the first 20 rows (nrows=20, src/utils.py line 18) and the scan starts
at index 0 with default 0. -/
def headerRowIdx (rows : RawRows) : Nat := findHeaderAux 0 (rows.take 20)

/-- Indexed map, the meaning of a Python enumerate comprehension. -/
def enumMap {α β : Type} (f : Nat → α → β) : Nat → List α → List β
  | _, [] => []
  | i, a :: as => f i a :: enumMap f (i + 1) as

theorem length_enumMap {α β : Type} (f : Nat → α → β) :
    ∀ (k : Nat) (l : List α), (enumMap f k l).length = l.length := by
  intro k l
  induction l generalizing k with
  | nil => rfl
  | cons a as ih => simp [enumMap, ih]

theorem get?_enumMap {α β : Type} (f : Nat → α → β) :
    ∀ (k : Nat) (l : List α) (i : Nat),
      (enumMap f k l).get? i = (l.get? i).map (fun a => f (k + i) a) := by
  intro k l
  induction l generalizing k with
  | nil => intro i; simp [enumMap]
  | cons a as ih =>
    intro i
    match i with
    | 0 => simp [enumMap]
    | j + 1 =>
      show (enumMap f (k + 1) as).get? j = _
      rw [ih (k + 1) j]
      have harith : k + 1 + j = k + (j + 1) := by omega
      rw [harith]
      rfl

/-- Embeds how pandas labels the columns when re-reading the sheet with
header=header_row_idx (src/utils.py line 27): a header cell holding a
value becomes that value, an empty header cell becomes the
auto-generated placeholder label made of the word Unnamed, a colon, a
space and the positional index. -/
def pandasHeaderLabels (row : RawRow) : List String :=
  enumMap
    (fun i c =>
      match c with
      | some s => s
      | none => "Unnamed: " ++ toString i)
    0 row

/-- Python str.startswith: the pattern's characters are a prefix of
the string's characters. -/
def strStartsWith (s pre : String) : Bool := decide (pre.data <+: s.data)

/-- Python str.strip(): remove leading and trailing whitespace
characters. -/
def strTrim (s : String) : String :=
  String.mk
    (((s.data.dropWhile Char.isWhitespace).reverse.dropWhile
        Char.isWhitespace).reverse)

/-- Python str.lower(): character-wise lowercasing. -/
def strLower (s : String) : String := String.mk (s.data.map Char.toLower)

/-- Embeds the column-name cleanup of load_excel_file (src/utils.py
line 30): for position i and label c, a label starting with Unnamed is
replaced by the synthetic name made of Column_ and the decimal index,
any other label is trimmed of surrounding whitespace. -/
def cleanColumns (cols : List String) : List String :=
  enumMap
    (fun i c =>
      if strStartsWith c "Unnamed" then "Column_" ++ toString i
      else strTrim c)
    0 cols

/-- One normalized sheet: the cleaned column labels and the data rows
below the chosen header row. -/
structure Sheet where
  columns : List String
  data : RawRows
deriving DecidableEq, Repr

/-- Embeds the per-sheet work of load_excel_file (src/utils.py lines
16-32): choose the header row on the 20-row preview, re-read with that
header (labels from the header row, data from the rows below it), and
clean the column labels. -/
def normalizeSheet (raw : RawRows) : Sheet :=
  let h := headerRowIdx raw
  { columns := cleanColumns (pandasHeaderLabels ((raw.get? h).getD []))
    data := raw.drop (h + 1) }

/-- A value stored in the dictionary load_excel_file returns: either a
normalized sheet (the success shape) or the error string (the shape
built on a caught read fault). Both shapes share one Python dict type,
which is what the upload handler's key test relies on. -/
inductive LoadVal where
  | df (s : Sheet)
  | errStr (m : String)
deriving DecidableEq, Repr

/-- The dictionary load_excel_file returns: sheet name to value, in
insertion order, as a Python dict of strings. -/
abbrev LoadedDict := List (String × LoadVal)

/-- One workbook source handed to load_excel_file: reading it either
yields the named raw sheet grids, or raises, in which case the caught
fault's string is recorded (src/utils.py lines 33-34 catch every
fault of the read path at once). -/
inductive WorkbookSource where
  | readable (sheets : List (String × RawRows))
  | malformed (msg : String)
deriving DecidableEq, Repr

/-- Embeds load_excel_file (src/utils.py lines 6-34): on a readable
workbook, normalize every sheet and return the sheet-name dictionary;
on a raised read fault, return the one-key dictionary binding the key
error to the fault's string. -/
def load_excel_file : WorkbookSource → LoadedDict
  | WorkbookSource.readable sheets =>
      sheets.map (fun p => (p.1, LoadVal.df (normalizeSheet p.2)))
  | WorkbookSource.malformed msg => [("error", LoadVal.errStr msg)]

/-- The session Dataset Collection: filename to the loaded dictionary,
as stored in st.session_state.dataframes. -/
abbrev Collection := List (String × LoadedDict)

/-- Python dict assignment d[k] = v: replace the existing binding of k
in place, or append a new one. -/
def dictInsert {α : Type} : List (String × α) → String → α → List (String × α)
  | [], k, v => [(k, v)]
  | p :: rest, k, v => if p.1 = k then (k, v) :: rest else p :: dictInsert rest k v

/-- Python key membership test on a string-keyed dict. -/
def hasKey {α : Type} (d : List (String × α)) (k : String) : Bool :=
  d.any (fun p => p.1 = k)

/-- Embeds one iteration of the Process Uploaded Files handler loop
(src/app.py lines 59-66): load the file; if the returned dictionary
contains the key error, report a load error for this file name;
otherwise store the dictionary in the session collection under the
file name.  The accumulator carries the collection and the names
reported as load errors, in order. -/
def processStep (acc : Collection × List String) (f : String × WorkbookSource) :
    Collection × List String :=
  let dfs := load_excel_file f.2
  if hasKey dfs "error" then (acc.1, acc.2 ++ [f.1])
  else (dictInsert acc.1 f.1 dfs, acc.2)

/-- The handler loop over the whole batch, starting from the empty
session collection and no reported errors. -/
def processFiles (files : List (String × WorkbookSource)) :
    Collection × List String :=
  files.foldl processStep ([], [])

/-! ## Sandboxed Executor (src/backend.py, FinancialAnalyst.execute_code)

The synthesized program is arbitrary untrusted Python; we model it
denotationally: a Program maps the initial evaluation scope and the
session Dataset Collection (handed to it by reference) to its observable
behavior — an optional raised fault, the final scope, the text written
to the current standard-output channel while it ran, and the state of
the collection object after its (possibly partial) execution.

Standard-output channels are modelled by identity: sys.stdout holds a
channel identifier, the freshly created capture buffer is a channel
distinct from the one held before the call (we give it identifier
stdout0 + 1). -/

/-- A Python runtime value as far as the executor observes it.  none is
the Python value None (the same object the executor uses as its failure
sentinel); dataframesRef is a reference to the session collection
object placed in the scope; pandasModule is the pd binding. -/
inductive PyValue where
  | none
  | num (n : Int)
  | str (s : String)
  | table (t : Sheet)
  | dataframesRef
  | pandasModule
deriving DecidableEq, Repr

/-- The execution scope: a Python dict from names to values. -/
abbrev Scope := List (String × PyValue)

/-- A raised Python fault: its class name (type(e).__name__), its
message (str(e)), and whether its class derives from builtins
Exception — the except clause in execute_code names Exception, which
SystemExit and KeyboardInterrupt do not derive from. -/
structure PyFault where
  category : String
  message : String
  fromException : Bool
deriving DecidableEq, Repr

/-- The observable behavior of one run of a synthesized program. -/
structure ProgBehavior where
  fault : Option PyFault
  finalScope : Scope
  printed : String
  collectionAfter : Collection
deriving Repr

/-- A synthesized program, modelled by what exec does with it: from the
initial scope and the collection object it can reach through that
scope, produce its observable behavior. -/
structure Program where
  run : Scope → Collection → ProgBehavior

/-- The scope execute_code builds (src/backend.py line 125): exactly
two bindings, the dataset collection under the name dataframes and the
tabular capability under the name pd. -/
def initScope : Scope :=
  [("dataframes", PyValue.dataframesRef), ("pd", PyValue.pandasModule)]

/-- The fixed missing-result failure message (src/backend.py line 142). -/
def missingResultMsg : String :=
  "Error: The code did not define a \x27result\x27 variable."

/-- The recovered-fault failure message (src/backend.py line 146). -/
def execErrorMsg (f : PyFault) : String :=
  "Execution Error: " ++ f.category ++ ": " ++ f.message

/-- What a call to execute_code does to the world: the returned pair
(when the call returns), the fault that escaped it (when one does),
the state of the session collection object afterwards, and the channel
sys.stdout holds afterwards. -/
structure ExecResult where
  returned : Option (PyValue × String)
  raised : Option PyFault
  dataframesAfter : Collection
  stdoutAfter : Nat
deriving DecidableEq, Repr

/-- Embeds FinancialAnalyst.execute_code (src/backend.py lines
120-146).  The scope is seeded with dataframes and pd; sys.stdout
(channel stdout0) is saved and redirected to a fresh capture buffer
(channel stdout0 + 1); the program runs.  If it completes, stdout is
restored and the call returns the bound value of the name result with
the captured output, or the None sentinel with the fixed missing-result
message.  If it raises a fault deriving from Exception, the except
clause restores stdout and returns the None sentinel with the fault's
class name and message.  A fault outside the Exception hierarchy
matches no clause: it escapes the call and sys.stdout keeps the capture
buffer. -/
def execute_code (code : Program) (dataframes : Collection) (stdout0 : Nat) :
    ExecResult :=
  let b := code.run initScope dataframes
  match b.fault with
  | some f =>
      if f.fromException then
        { returned := some (PyValue.none, execErrorMsg f)
          raised := none
          dataframesAfter := b.collectionAfter
          stdoutAfter := stdout0 }
      else
        { returned := none
          raised := some f
          dataframesAfter := b.collectionAfter
          stdoutAfter := stdout0 + 1 }
  | none =>
      match b.finalScope.lookup "result" with
      | some v =>
          { returned := some (v, b.printed)
            raised := none
            dataframesAfter := b.collectionAfter
            stdoutAfter := stdout0 }
      | none =>
          { returned := some (PyValue.none, missingResultMsg)
            raised := none
            dataframesAfter := b.collectionAfter
            stdoutAfter := stdout0 }

/-- The turn handler's reading of an execution (src/app.py lines
131-136): one of a Failure message or a Result with its captured
output, exactly one of the two. -/
inductive Outcome where
  | failureMsg (msg : String)
  | resultVal (v : PyValue) (output : String)
deriving DecidableEq, Repr

/-- The prefix of the error response the turn handler builds
(src/app.py line 132). -/
def errorPrefix : String :=
  "I encountered an error while calculating the answer:\n"

/-- Embeds the chat-turn handler's discrimination (src/app.py lines
131-136): the returned value being None selects the error branch, any
other value selects the explain branch. -/
def classifyTurn (p : PyValue × String) : Outcome :=
  if p.1 = PyValue.none then Outcome.failureMsg (errorPrefix ++ p.2)
  else Outcome.resultVal p.1 p.2

/-! ## Total-Row Resolution Heuristic

Modelled from the spec: the analysis program that carries out this
algorithm is synthesized by the completion service at run time and is
not part of the repository; what the repository contains is the
algorithm's statement inside the generate_code prompt (src/backend.py
lines 85-93).  The definitions below follow that prompt and spec
section 4.4 step by step. -/

/-- Case-insensitive substring test, the meaning of the prompt's
str.contains with case=False. -/
def strContains (s pat : String) : Bool := decide (pat.data <:+: s.data)

/-- Modelled from the spec: one row of a hierarchical statement after
the prompt's cleanup — the category cell forced to text, and the values
of the remaining numeric columns in display order, none marking an
entry coerced to the missing marker by to_numeric. -/
structure StmtRow where
  category : String
  amounts : List (Option Int)
deriving DecidableEq, Repr

/-- Modelled from the spec: the total-row test of heuristic step 1 —
the category contains, case-insensitively, total for the concept or
total followed by the concept. -/
def isTotalRowFor (concept : String) (r : StmtRow) : Bool :=
  strContains (strLower r.category) ("total for " ++ strLower concept) ||
  strContains (strLower r.category) ("total " ++ strLower concept)

/-- Modelled from the spec: any total row at all, the stopping
condition of the summation fallback. -/
def isTotalRow (r : StmtRow) : Bool :=
  strContains (strLower r.category) "total"

/-- Modelled from the spec: the amount read from a row — when more
than one numeric column remains after cleanup, the last one is the
grand total, so the last column's value is taken. -/
def lastAmount (r : StmtRow) : Option Int :=
  match r.amounts.getLast? with
  | some (some v) => some v
  | _ => Option.none

/-- Modelled from the spec: summing a slice of rows on the amount
column, missing entries contributing nothing (pandas sum skips the
missing marker). -/
def sumAmounts (rows : List StmtRow) : Int :=
  (rows.map (fun r => (lastAmount r).getD 0)).sum

/-- Modelled from the spec: the section header test of the summation
fallback — a row whose category is the concept itself. -/
def isSectionHeader (concept : String) (r : StmtRow) : Bool :=
  strLower r.category == strLower concept

/-- Modelled from the spec: the rows strictly between the section's
header row and the next total row (or the end of the data). -/
def sectionSlice (concept : String) (rows : List StmtRow) : List StmtRow :=
  (((rows.dropWhile (fun r => ! isSectionHeader concept r)).drop 1).takeWhile
    (fun r => ! isTotalRow r))

/-- Modelled from the spec: the whole Total-Row Resolution Heuristic.
A default answer is established first; then the total-row search: on a
match the amount of that row is returned immediately.  Only when no
total row matches, the summation fallback sums the rows strictly
between the section header and the next total row; with no section
header either, the default stands. -/
def answerQuery (concept : String) (rows : List StmtRow) : PyValue :=
  match rows.find? (isTotalRowFor concept) with
  | some r =>
      match lastAmount r with
      | some v => PyValue.num v
      | Option.none => PyValue.str "Could not calculate"
  | Option.none =>
      if rows.any (isSectionHeader concept) then
        PyValue.num (sumAmounts (sectionSlice concept rows))
      else PyValue.str "Could not calculate"

/-! ## Concrete fixtures -/

/-- A small normalized sheet used as a tabular result value. -/
def sampleSheet : Sheet :=
  { columns := ["Name", "Memo", "Amount"]
    data := [[some "Rent", some "office", some "1200"]] }

/-- A one-file session collection. -/
def sampleCollection : Collection :=
  [("pl.xlsx", [("Sheet1", LoadVal.df sampleSheet)])]

/-- A program that binds result to a tabular value, prints a log line,
and touches nothing else. -/
def tableProgram : Program :=
  ⟨fun s c =>
    { fault := none
      finalScope := s ++ [("result", PyValue.table sampleSheet)]
      printed := "log line"
      collectionAfter := c }⟩

/-- A program that completes without ever binding the name result. -/
def noResultProgram : Program :=
  ⟨fun s c =>
    { fault := none
      finalScope := s ++ [("answer", PyValue.num 7)]
      printed := "computed 7"
      collectionAfter := c }⟩

/-- A program that raises an ordinary fault, TypeError, mid-run. -/
def typeErrorProgram : Program :=
  ⟨fun s c =>
    { fault := some ⟨"TypeError", "unsupported operand", true⟩
      finalScope := s
      printed := ""
      collectionAfter := c }⟩

/-- The fault raised by a program executing raise SystemExit(1):
SystemExit derives from BaseException, not from Exception. -/
def sysExitFault : PyFault := ⟨"SystemExit", "1", false⟩

/-- A program that executes raise SystemExit(1). -/
def sysExitProgram : Program :=
  ⟨fun s c =>
    { fault := some sysExitFault
      finalScope := s
      printed := ""
      collectionAfter := c }⟩

/-- A program that executes dataframes.clear() on the collection
object it was handed and binds a result. -/
def clearProgram : Program :=
  ⟨fun s _ =>
    { fault := none
      finalScope := s ++ [("result", PyValue.str "done")]
      printed := ""
      collectionAfter := [] }⟩

/-- A program that binds result to the Python value None after some
partial work that printed output. -/
def bindNoneProgram : Program :=
  ⟨fun s c =>
    { fault := none
      finalScope := s ++ [("result", PyValue.none)]
      printed := "partial output"
      collectionAfter := c }⟩

/-! ## Claim C1 -/

/-- C1: for every synthesized program and dataset collection whose
execution completes without a raised fault, the executor's outcome is
determined by the post-execution scope: if the scope binds the
designated name result, execute_code returns that bound value together
with the captured incidental output; if the name is absent, it returns
the None sentinel with the fixed contract-not-honored message — a
constant independent of the captured output, so the captured output is
never returned in place of the missing result value. -/
theorem executor_outcome_by_scope (code : Program) (c : Collection) (s0 : Nat)
    (hnf : (code.run initScope c).fault = none) :
    (∀ v, (code.run initScope c).finalScope.lookup "result" = some v →
      (execute_code code c s0).returned
        = some (v, (code.run initScope c).printed)) ∧
    ((code.run initScope c).finalScope.lookup "result" = none →
      (execute_code code c s0).returned
        = some (PyValue.none, missingResultMsg)) := by
  constructor
  · intro v hv
    simp [execute_code, hnf, hv]
  · intro hv
    simp [execute_code, hnf, hv]

/-- C1 witness: a program that binds result to a tabular value gets
that value back intact with the captured output, and a program that
never binds result gets the fixed failure message, not its printed
output. -/
theorem executor_outcome_by_scope_witness :
    (execute_code tableProgram sampleCollection 0).returned
      = some (PyValue.table sampleSheet, "log line") ∧
    (execute_code noResultProgram sampleCollection 0).returned
      = some (PyValue.none, missingResultMsg) :=
  ⟨(executor_outcome_by_scope tableProgram sampleCollection 0 rfl).1
      (PyValue.table sampleSheet) (by decide),
   (executor_outcome_by_scope noResultProgram sampleCollection 0 rfl).2
      (by decide)⟩

/-! ## Claim C2 -/

/-- C2 counterexample: a program that raises SystemExit — a fault whose
class does not derive from Exception — escapes execute_code as a raw
fault instead of being recovered, so it is false that no fault raised
by the executed program ever propagates out of the executor. -/
theorem executor_fault_can_propagate :
    (execute_code sysExitProgram sampleCollection 0).raised
      = some sysExitFault := rfl

/-- C2 amended: every fault whose class derives from Exception is
recovered locally — the executor returns a Failure carrying the
fault's class name and message and propagates nothing; only a fault
outside the Exception hierarchy (SystemExit, KeyboardInterrupt)
escapes as a raw fault. -/
theorem executor_recovers_exception_faults (code : Program) (c : Collection)
    (s0 : Nat) (f : PyFault) (hf : (code.run initScope c).fault = some f)
    (hexc : f.fromException = true) :
    (execute_code code c s0).returned = some (PyValue.none, execErrorMsg f) ∧
    (execute_code code c s0).raised = none := by
  constructor <;> simp [execute_code, hf, hexc]

/-- C2 witness: a TypeError raised mid-run comes back as the recovered
failure message carrying its class name and message. -/
theorem executor_recovers_exception_faults_witness :
    (execute_code typeErrorProgram sampleCollection 0).returned
      = some (PyValue.none, "Execution Error: TypeError: unsupported operand") ∧
    (execute_code typeErrorProgram sampleCollection 0).raised = none :=
  executor_recovers_exception_faults typeErrorProgram sampleCollection 0
    ⟨"TypeError", "unsupported operand", true⟩ rfl rfl

/-! ## Claim C3 -/

/-- C3 counterexample: when a program raises a fault outside the
Exception hierarchy, the fault escapes before any restoring assignment
runs, so after the call sys.stdout still holds the capture buffer
(channel 1), not the prior channel 0 — the redirection leaks. -/
theorem executor_stdout_leak :
    (execute_code sysExitProgram sampleCollection 0).stdoutAfter = 1 ∧
    (execute_code sysExitProgram sampleCollection 0).stdoutAfter ≠ 0 := by
  constructor
  · rfl
  · decide

/-- C3 amended: whenever the call to execute_code returns — success,
missing result, or a recovered Exception-derived fault — sys.stdout is
restored to exactly the channel it held before the call; only a
propagating non-Exception fault leaves the redirection in place. -/
theorem executor_restores_stdout (code : Program) (c : Collection) (s0 : Nat)
    (h : (execute_code code c s0).raised = none) :
    (execute_code code c s0).stdoutAfter = s0 := by
  unfold execute_code at h ⊢
  cases hf : (code.run initScope c).fault with
  | none =>
    simp only [hf]
    cases hl : (code.run initScope c).finalScope.lookup "result" <;> simp [hl]
  | some f =>
    cases hexc : f.fromException with
    | true => simp [hf, hexc]
    | false => simp [hf, hexc] at h

/-- C3 witness: after a successful run, sys.stdout holds channel 5
again when it held channel 5 before. -/
theorem executor_restores_stdout_witness :
    (execute_code tableProgram sampleCollection 5).stdoutAfter = 5 :=
  executor_restores_stdout tableProgram sampleCollection 5 (by decide)

/-! ## Claim C4 -/

/-- C4: the executor seeds the scope with the session collection
object itself, not a working copy, so a synthesized program that
executes dataframes.clear() leaves the shared Dataset Collection empty
after the call — the code lets a synthesized program mutate the
session's shared collection, contradicting the claimed isolation. -/
theorem executor_collection_mutation :
    (execute_code clearProgram sampleCollection 0).dataframesAfter = [] ∧
    sampleCollection ≠ [] ∧
    (execute_code clearProgram sampleCollection 0).dataframesAfter
      ≠ sampleCollection := by
  refine ⟨rfl, ?_, ?_⟩ <;> decide

/-! ## Claim C9 -/

/-- C9 counterexample: a program that does bind the designated result
name — to the Python value None — is classified by the turn handler as
a Failure (the discrimination is the returned value being None), so it
is false that any program binding the designated result name yields a
Result carrying that bound value. -/
theorem bound_none_classified_failure :
    (bindNoneProgram.run initScope sampleCollection).finalScope.lookup "result"
      = some PyValue.none ∧
    ((execute_code bindNoneProgram sampleCollection 0).returned.map classifyTurn)
      = some (Outcome.failureMsg (errorPrefix ++ "partial output")) := by
  constructor <;> decide

/-- C9 amended: for every execution whose call returns, the turn
outcome is exactly one of a Result or a Failure, discriminated by the
returned value being None: a program that binds result to a value
other than None yields a Result carrying that bound value; a recovered
fault, a missing binding, or a binding of result to None yields a
Failure. -/
theorem turn_outcome_classification (code : Program) (c : Collection)
    (s0 : Nat) :
    (∀ v, (code.run initScope c).fault = none →
      (code.run initScope c).finalScope.lookup "result" = some v →
      v ≠ PyValue.none →
      ((execute_code code c s0).returned.map classifyTurn)
        = some (Outcome.resultVal v (code.run initScope c).printed)) ∧
    ((code.run initScope c).fault = none →
      (code.run initScope c).finalScope.lookup "result" = none →
      ((execute_code code c s0).returned.map classifyTurn)
        = some (Outcome.failureMsg (errorPrefix ++ missingResultMsg))) ∧
    (∀ f, (code.run initScope c).fault = some f → f.fromException = true →
      ((execute_code code c s0).returned.map classifyTurn)
        = some (Outcome.failureMsg (errorPrefix ++ execErrorMsg f))) ∧
    (∀ v, (code.run initScope c).fault = none →
      (code.run initScope c).finalScope.lookup "result" = some v →
      v = PyValue.none →
      ((execute_code code c s0).returned.map classifyTurn)
        = some (Outcome.failureMsg
            (errorPrefix ++ (code.run initScope c).printed))) := by
  refine ⟨?_, ?_, ?_, ?_⟩
  · intro v hnf hv hne
    simp [execute_code, hnf, hv, classifyTurn, hne]
  · intro hnf hv
    simp [execute_code, hnf, hv, classifyTurn]
  · intro f hf hexc
    simp [execute_code, hf, hexc, classifyTurn]
  · intro v hnf hv hveq
    subst hveq
    simp [execute_code, hnf, hv, classifyTurn]

/-- C9 witness: a program binding result to the number 7 yields the
Result outcome carrying 7, and a program that never binds result
yields the Failure outcome built from the fixed message. -/
theorem turn_outcome_classification_witness :
    ((execute_code
        (Program.mk (fun s c =>
          { fault := none
            finalScope := s ++ [("result", PyValue.num 7)]
            printed := ""
            collectionAfter := c }))
        sampleCollection 0).returned.map classifyTurn)
      = some (Outcome.resultVal (PyValue.num 7) "") ∧
    ((execute_code noResultProgram sampleCollection 0).returned.map classifyTurn)
      = some (Outcome.failureMsg (errorPrefix ++ missingResultMsg)) :=
  ⟨(turn_outcome_classification _ sampleCollection 0).1
      (PyValue.num 7) rfl (by decide) (by decide),
   (turn_outcome_classification noResultProgram sampleCollection 0).2.1
      rfl (by decide)⟩

/-! ## Claim C5 -/

/-- All preview rows of a slice are sparse: the scan rejects each. -/
theorem findHeaderAux_all_sparse :
    ∀ (l : RawRows) (k : Nat),
      l.all (fun row => decide (rowCount row < 3)) = true →
      findHeaderAux k l = 0 := by
  intro l
  induction l with
  | nil => intro k _; rfl
  | cons r rs ih =>
    intro k h
    rw [List.all_cons, Bool.and_eq_true] at h
    have h1 : rowCount r < 3 := of_decide_eq_true h.1
    show (if 3 ≤ rowCount r then k else findHeaderAux (k + 1) rs) = 0
    rw [if_neg (by omega)]
    exact ih (k + 1) h.2

/-- The scan returns the index of the first qualifying row: if row i
holds at least 3 non-missing cells and every earlier row is sparse,
the scan started at k answers k + i. -/
theorem findHeaderAux_first :
    ∀ (l : RawRows) (i : Nat) (r : RawRow) (k : Nat),
      l.get? i = some r → 3 ≤ rowCount r →
      (l.take i).all (fun row => decide (rowCount row < 3)) = true →
      findHeaderAux k l = k + i := by
  intro l
  induction l with
  | nil => intro i r k hget; simp at hget
  | cons a as ih =>
    intro i r k hget hcount hsparse
    match i with
    | 0 =>
      have ha : a = r := by simpa using hget
      show (if 3 ≤ rowCount a then k else findHeaderAux (k + 1) as) = k + 0
      rw [ha, if_pos hcount]
      omega
    | j + 1 =>
      rw [List.take_succ_cons, List.all_cons, Bool.and_eq_true] at hsparse
      have h1 : rowCount a < 3 := of_decide_eq_true hsparse.1
      show (if 3 ≤ rowCount a then k else findHeaderAux (k + 1) as) = k + (j + 1)
      rw [if_neg (by omega)]
      have := ih j r (k + 1) (by simpa using hget) hcount hsparse.2
      omega

/-- C5: the normalizer scans the rows of the 20-row preview window in
order and selects as header row index the first row containing at
least 3 non-missing cells, defaulting to index 0 when no row of the
window qualifies; in particular a sheet whose first two rows have
fewer than 3 non-missing cells and whose third row has at least 3
selects index 2. -/
theorem header_row_selection :
    (∀ (rows : RawRows) (i : Nat) (r : RawRow), i < 20 →
      rows.get? i = some r → 3 ≤ rowCount r →
      (rows.take i).all (fun row => decide (rowCount row < 3)) = true →
      headerRowIdx rows = i) ∧
    (∀ rows : RawRows,
      (rows.take 20).all (fun row => decide (rowCount row < 3)) = true →
      headerRowIdx rows = 0) ∧
    headerRowIdx
      [[some "Profit and Loss", none, none],
       [none, some "FY2024", none],
       [some "Name", some "Memo", some "Amount"],
       [some "Rent", some "office", some "1200"]] = 2 := by
  refine ⟨?_, ?_, ?_⟩
  · intro rows i r h20 hget hcount hsparse
    have hget' : (rows.take 20).get? i = some r := by
      rw [List.get?_take h20]; exact hget
    have hsparse' :
        ((rows.take 20).take i).all (fun row => decide (rowCount row < 3))
          = true := by
      rw [List.take_take, Nat.min_eq_left (by omega)]
      exact hsparse
    have := findHeaderAux_first (rows.take 20) i r 0 hget' hcount hsparse'
    simpa [headerRowIdx] using this
  · intro rows hall
    exact findHeaderAux_all_sparse (rows.take 20) 0 hall
  · decide

/-- C5 witness: on the concrete sheet with sparse rows 0 and 1 and a
3-cell row 2, the selection theorem applies with index 2 and yields 2. -/
theorem header_row_selection_witness :
    headerRowIdx
      [[some "Profit and Loss", none, none],
       [none, some "FY2024", none],
       [some "Name", some "Memo", some "Amount"],
       [some "Rent", some "office", some "1200"]] = 2 :=
  header_row_selection.1
    [[some "Profit and Loss", none, none],
     [none, some "FY2024", none],
     [some "Name", some "Memo", some "Amount"],
     [some "Rent", some "office", some "1200"]]
    2 [some "Name", some "Memo", some "Amount"]
    (by decide) (by decide) (by decide) (by decide)

/-! ## Claim C6 -/

/-- C6 counterexample: two header cells that differ only in
surrounding whitespace are distinct raw labels, but trimming maps both
to the same post-processed name, so the post-processed column names of
a normalized sheet are not pairwise distinct in general. -/
theorem cleaned_columns_can_collide :
    pandasHeaderLabels [some "A ", some "A"] = ["A ", "A"] ∧
    (normalizeSheet [[some "A ", some "A"]]).columns = ["A", "A"] ∧
    ¬ (normalizeSheet [[some "A ", some "A"]]).columns.Nodup := by
  refine ⟨rfl, rfl, ?_⟩
  rw [(rfl : (normalizeSheet [[some "A ", some "A"]]).columns = ["A", "A"])]
  decide

/-- C6 amended: the cleanup trims every named label of surrounding
whitespace and replaces every label starting with the auto-generated
Unnamed placeholder by the synthetic name Column_ followed by the
positional index; synthetic names at distinct positions are always
distinct, so two unnamed columns never collide — but the trimmed named
labels are not guaranteed pairwise distinct from each other or from
the synthetic names. -/
theorem cleaned_columns_properties :
    (∀ (cols : List String) (i : Nat) (c : String),
      cols.get? i = some c → strStartsWith c "Unnamed" = true →
      (cleanColumns cols).get? i = some ("Column_" ++ toString i)) ∧
    (∀ (cols : List String) (i : Nat) (c : String),
      cols.get? i = some c → strStartsWith c "Unnamed" = false →
      (cleanColumns cols).get? i = some (strTrim c)) ∧
    (∀ (cols : List String) (i j : Nat) (ci cj vi vj : String),
      i ≠ j →
      cols.get? i = some ci → cols.get? j = some cj →
      strStartsWith ci "Unnamed" = true → strStartsWith cj "Unnamed" = true →
      (cleanColumns cols).get? i = some vi →
      (cleanColumns cols).get? j = some vj →
      vi ≠ vj) := by
  have hget : ∀ (cols : List String) (i : Nat),
      (cleanColumns cols).get? i
        = (cols.get? i).map
            (fun c =>
              if strStartsWith c "Unnamed" then "Column_" ++ toString i
              else strTrim c) := by
    intro cols i
    have := get?_enumMap
      (fun i c =>
        if strStartsWith c "Unnamed" then "Column_" ++ toString i
        else strTrim c)
      0 cols i
    simpa [cleanColumns] using this
  refine ⟨?_, ?_, ?_⟩
  · intro cols i c hc hu
    rw [hget, hc]
    simp [hu]
  · intro cols i c hc hu
    rw [hget, hc]
    simp [hu]
  · intro cols i j ci cj vi vj hij hci hcj hui huj hvi hvj
    rw [hget, hci] at hvi
    rw [hget, hcj] at hvj
    simp [hui] at hvi
    simp [huj] at hvj
    intro hcontra
    rw [← hvi, ← hvj] at hcontra
    exact hij (column_name_injective hcontra)

/-- C6 witness: a workbook row with two empty header cells produces
the labels Unnamed: 0 and Unnamed: 1, and the cleanup maps them to the
distinct synthetic names Column_0 and Column_1. -/
theorem cleaned_columns_properties_witness :
    (cleanColumns ["Unnamed: 0", "Unnamed: 1"]).get? 0 = some "Column_0" ∧
    (cleanColumns ["Unnamed: 0", "Unnamed: 1"]).get? 1 = some "Column_1" ∧
    ("Column_0" : String) ≠ "Column_1" :=
  ⟨by
    have := cleaned_columns_properties.1 ["Unnamed: 0", "Unnamed: 1"] 0
      "Unnamed: 0" rfl rfl
    simpa using this,
   by
    have := cleaned_columns_properties.1 ["Unnamed: 0", "Unnamed: 1"] 1
      "Unnamed: 1" rfl rfl
    simpa using this,
   cleaned_columns_properties.2.2 ["Unnamed: 0", "Unnamed: 1"] 0 1
    "Unnamed: 0" "Unnamed: 1" "Column_0" "Column_1"
    (by decide) rfl rfl rfl rfl (by decide) (by decide)⟩

/-! ## Upload-batch fixtures -/

/-- A plain raw sheet grid whose first row is a 3-cell header. -/
def goodRows : RawRows :=
  [[some "Name", some "Memo", some "Amount"],
   [some "Rent", some "office", some "100"]]

/-- A readable workbook with one ordinary sheet. -/
def goodSourceA : WorkbookSource := WorkbookSource.readable [("Sheet1", goodRows)]

/-- A second readable workbook with one ordinary sheet. -/
def goodSourceB : WorkbookSource := WorkbookSource.readable [("Summary", goodRows)]

/-- A readable workbook whose only sheet is literally named error. -/
def trapSource : WorkbookSource := WorkbookSource.readable [("error", goodRows)]

/-- A malformed workbook: reading it raises. -/
def badSource : WorkbookSource := WorkbookSource.malformed "File is not a zip file"

/-! ## Claim C7 -/

/-- Python dict assignment then lookup of the same key. -/
theorem lookup_dictInsert_self {α : Type} :
    ∀ (d : List (String × α)) (k : String) (v : α),
      (dictInsert d k v).lookup k = some v := by
  intro d k v
  induction d with
  | nil => simp [dictInsert, List.lookup]
  | cons p rest ih =>
    by_cases h : p.1 = k
    · simp [dictInsert, h, List.lookup]
    · simp only [dictInsert, if_neg h]
      have hbeq : (k == p.1) = false := by
        simp [beq_eq_false_iff_ne]
        intro hc
        exact h hc.symm
      simpa [List.lookup, hbeq] using ih

/-- Python dict assignment leaves other keys unchanged. -/
theorem lookup_dictInsert_ne {α : Type} :
    ∀ (d : List (String × α)) (k : String) (v : α) (k' : String), k ≠ k' →
      (dictInsert d k v).lookup k' = d.lookup k' := by
  intro d k v k' hne
  induction d with
  | nil =>
    have hbeq : (k' == k) = false := by
      simp [beq_eq_false_iff_ne]
      intro hc
      exact hne hc.symm
    simp [dictInsert, List.lookup, hbeq]
  | cons p rest ih =>
    by_cases h : p.1 = k
    · have hbeq : (k' == k) = false := by
        simp [beq_eq_false_iff_ne]
        intro hc
        exact hne hc.symm
      have hbeq' : (k' == p.1) = false := by
        rw [h]
        exact hbeq
      simp [dictInsert, h, List.lookup, hbeq, hbeq']
    · simp only [dictInsert, if_neg h]
      cases hbeq : (k' == p.1) <;> simp [List.lookup, hbeq, ih]

/-- The error list the handler loop accumulates is exactly the names
of the files whose loaded dictionary contains the key error, appended
in order to what was accumulated before. -/
theorem processFold_errors :
    ∀ (files : List (String × WorkbookSource)) (acc : Collection × List String),
      (files.foldl processStep acc).2
        = acc.2 ++ (files.filter
            (fun f => hasKey (load_excel_file f.2) "error")).map Prod.fst := by
  intro files
  induction files with
  | nil => intro acc; simp
  | cons f fs ih =>
    intro acc
    by_cases hb : hasKey (load_excel_file f.2) "error"
    · show (fs.foldl processStep (processStep acc f)).2 = _
      rw [ih (processStep acc f)]
      simp [processStep, hb]
    · show (fs.foldl processStep (processStep acc f)).2 = _
      rw [ih (processStep acc f)]
      simp [processStep, hb]

/-- Files processed later never disturb a name they do not carry. -/
theorem processFold_lookup_not_mem :
    ∀ (files : List (String × WorkbookSource)) (acc : Collection × List String)
      (name : String), name ∉ files.map Prod.fst →
      (files.foldl processStep acc).1.lookup name = acc.1.lookup name := by
  intro files
  induction files with
  | nil => intro acc name _; rfl
  | cons f fs ih =>
    intro acc name hnm
    simp only [List.map_cons, List.mem_cons] at hnm
    push_neg at hnm
    show (fs.foldl processStep (processStep acc f)).1.lookup name = _
    rw [ih (processStep acc f) name hnm.2]
    by_cases hb : hasKey (load_excel_file f.2) "error"
    · simp [processStep, hb]
    · simp only [processStep, if_neg hb]
      exact lookup_dictInsert_ne acc.1 f.1 _ name (fun hc => hnm.1 hc.symm)

/-- A file whose loaded dictionary has no key error ends up stored in
the collection under its name, whatever else is in the batch. -/
theorem processFold_good_lookup :
    ∀ (files : List (String × WorkbookSource)) (acc : Collection × List String)
      (name : String) (src : WorkbookSource),
      (name, src) ∈ files → (files.map Prod.fst).Nodup →
      hasKey (load_excel_file src) "error" = false →
      (files.foldl processStep acc).1.lookup name
        = some (load_excel_file src) := by
  intro files
  induction files with
  | nil => intro acc name src hmem; simp at hmem
  | cons f fs ih =>
    intro acc name src hmem hnd hgood
    rw [List.map_cons, List.nodup_cons] at hnd
    rcases List.mem_cons.mp hmem with heq | hmem'
    · have hf1 : f.1 = name := by rw [← heq]
      have hnm : name ∉ fs.map Prod.fst := by
        rw [← hf1]
        exact hnd.1
      show (fs.foldl processStep (processStep acc f)).1.lookup name = _
      rw [processFold_lookup_not_mem fs (processStep acc f) name hnm]
      have hsrc : f.2 = src := by rw [← heq]
      simp only [processStep, hsrc]
      rw [hgood]
      simp only [Bool.false_eq_true, if_false]
      rw [hf1]
      exact lookup_dictInsert_self acc.1 name (load_excel_file src)
    · exact ih (processStep acc f) name src hmem' hnd.2 hgood

/-- C7 counterexample: a batch of three files of which exactly one is
malformed — but one of the readable ones has a sheet literally named
error.  That file loads successfully (its dictionary maps error to a
normalized sheet, not to an error string), yet the handler reports two
load errors and adds only one entry, refuting the claim that such a
batch yields two normalized entries and exactly one load error. -/
theorem load_isolation_counterexample :
    load_excel_file trapSource
      = [("error", LoadVal.df (normalizeSheet goodRows))] ∧
    (processFiles
        [("bad.xlsx", badSource), ("trap.xlsx", trapSource),
         ("good.xlsx", goodSourceA)]).1.length = 1 ∧
    (processFiles
        [("bad.xlsx", badSource), ("trap.xlsx", trapSource),
         ("good.xlsx", goodSourceA)]).2
      = ["bad.xlsx", "trap.xlsx"] := by
  refine ⟨rfl, rfl, rfl⟩

/-- C7 amended: a read error while loading one file is caught and
reported as a load error attributed to that file only — the reported
error names are exactly the files whose loaded dictionary contains the
key error, in batch order, and every malformed file is among them; the
remaining files are still processed, and each file whose loaded
dictionary does not contain the key error is added to the collection
under its name.  Three files of which exactly one is malformed yield
two normalized entries and one load error provided the readable ones
have no sheet named error. -/
theorem load_error_isolation :
    (∀ files : List (String × WorkbookSource),
      (processFiles files).2
        = (files.filter
            (fun f => hasKey (load_excel_file f.2) "error")).map Prod.fst) ∧
    (∀ msg, hasKey (load_excel_file (WorkbookSource.malformed msg)) "error"
      = true) ∧
    (∀ (files : List (String × WorkbookSource)) (name : String)
       (src : WorkbookSource),
      (name, src) ∈ files → (files.map Prod.fst).Nodup →
      hasKey (load_excel_file src) "error" = false →
      (processFiles files).1.lookup name = some (load_excel_file src)) ∧
    processFiles
        [("bad.xlsx", badSource), ("a.xlsx", goodSourceA),
         ("b.xlsx", goodSourceB)]
      = ([("a.xlsx", load_excel_file goodSourceA),
          ("b.xlsx", load_excel_file goodSourceB)], ["bad.xlsx"]) := by
  refine ⟨?_, ?_, ?_, ?_⟩
  · intro files
    have := processFold_errors files ([], [])
    simpa [processFiles] using this
  · intro msg
    rfl
  · intro files name src hmem hnd hgood
    exact processFold_good_lookup files ([], []) name src hmem hnd hgood
  · rfl

/-- C7 witness: in a two-file batch with one malformed file, the
readable file is stored under its name with its normalized sheets. -/
theorem load_error_isolation_witness :
    (processFiles [("bad.xlsx", badSource), ("a.xlsx", goodSourceA)]).1.lookup
        "a.xlsx"
      = some (load_excel_file goodSourceA) :=
  load_error_isolation.2.2.1
    [("bad.xlsx", badSource), ("a.xlsx", goodSourceA)]
    "a.xlsx" goodSourceA (by decide) (by decide) (by decide)

/-! ## Claim C10 -/

/-- C10: success and failure of load_excel_file are distinguished only
by membership of the key error in the returned dictionary, so a
workbook that loads successfully but contains a sheet literally named
error is classified as a failed load: the handler reports a load error
for it and adds none of its sheets to the Dataset Collection. -/
theorem error_named_sheet_misclassified :
    load_excel_file trapSource
      = [("error", LoadVal.df (normalizeSheet goodRows))] ∧
    processFiles [("trap.xlsx", trapSource)] = ([], ["trap.xlsx"]) :=
  ⟨rfl, rfl⟩

/-! ## Claim C8 -/

/-- A hierarchical statement with an Income section: three sub-items
whose amounts sum to 4950, and a Total Income row whose numeric
columns hold vendor details 120 and 340 before the grand total 5000. -/
def exampleStatement : List StmtRow :=
  [⟨"Income", [Option.none, Option.none, Option.none]⟩,
   ⟨"Design income", [Option.none, Option.none, some 100]⟩,
   ⟨"Consulting income", [Option.none, Option.none, some 2000]⟩,
   ⟨"Sales of Product", [Option.none, Option.none, some 2850]⟩,
   ⟨"Total Income", [some 120, some 340, some 5000]⟩]

/-- C8: the heuristic searches for a matching total row before any
summation and, whenever one exists, returns its amount immediately —
read from the last numeric column when several remain — never falling
through to summing sub-items; on the example statement the query for
income answers 5000 (the last numeric column of the Total Income row)
even though the sub-items sum to 4950. -/
theorem total_row_precedence :
    (∀ (concept : String) (rows : List StmtRow) (r : StmtRow) (v : Int),
      rows.find? (isTotalRowFor concept) = some r →
      lastAmount r = some v →
      answerQuery concept rows = PyValue.num v) ∧
    lastAmount ⟨"Total Income", [some 120, some 340, some 5000]⟩
      = some 5000 ∧
    answerQuery "income" exampleStatement = PyValue.num 5000 ∧
    sumAmounts ((exampleStatement.drop 1).take 3) = 4950 := by
  refine ⟨?_, rfl, ?_, rfl⟩
  · intro concept rows r v hf hl
    simp [answerQuery, hf, hl]
  · rfl

/-- C8 witness: on the example statement the total-row branch of the
theorem applies with the Total Income row and yields 5000. -/
theorem total_row_precedence_witness :
    answerQuery "income" exampleStatement = PyValue.num 5000 :=
  total_row_precedence.1 "income" exampleStatement
    ⟨"Total Income", [some 120, some 340, some 5000]⟩ 5000
    (by decide) rfl

end IntelligentAccountant
